import Mathlib

/-!
Shallow embedding of the MyEzz client data-access modules
(`src/api/unifiedOrderService.js` and `src/api/riderService.js`).

HTTP and socket transports are modelled as oracle functions passed to each
operation; JavaScript values that may be absent or falsy are modelled by
`Option`, with the `||` operator modelled by truthiness on the carried value
(the empty string is falsy).  Machine numbers are modelled by `Int` (prices,
quantities and fees are exact integers in all claims considered here).
-/

namespace MyEzz

/-- Error value carried by a rejected HTTP request (axios rejection). -/
abbrev Err := String

/-- JavaScript truthiness of a possibly-absent string: `undefined`, `null`
and `""` are falsy. -/
def truthyS : Option String → Bool
  | none => false
  | some s => if s = "" then false else true

/-- JavaScript `a || b` on possibly-absent strings: returns `a` when truthy,
otherwise `b` unchanged. -/
def jsOr (a b : Option String) : Option String :=
  if truthyS a then a else b

/-- JavaScript `a || null` on a possibly-absent string. -/
def jsOrNull (a : Option String) : Option String :=
  if truthyS a then a else none

/-- JavaScript `a || d` where the fallback `d` is a (truthy) string literal. -/
def jsOrD (a : Option String) (d : String) : String :=
  if truthyS a then a.getD d else d

/-- Digits (already checked by `Char.isDigit`) read as a base-10 number. -/
def digitsToNat (cs : List Char) : Nat :=
  cs.foldl (fun a c => a * 10 + (c.toNat - 48)) 0

/-- JavaScript `parseInt` on a string: optional sign followed by a maximal
run of digits; `none` models `NaN`. -/
def jsParseInt (s : String) : Option Int :=
  match s.toList.dropWhile (fun c => c = ' ') with
  | '-' :: rest =>
    let ds := rest.takeWhile Char.isDigit
    if ds = [] then none else some (-(digitsToNat ds : Int))
  | '+' :: rest =>
    let ds := rest.takeWhile Char.isDigit
    if ds = [] then none else some ((digitsToNat ds : Int))
  | rest =>
    let ds := rest.takeWhile Char.isDigit
    if ds = [] then none else some ((digitsToNat ds : Int))

/-- `parseInt(restaurantId) || 1` from `placeOrder`: `NaN` and `0` are falsy
and fall back to `1`. -/
def jsParseIntOr1 (s : String) : Int :=
  match jsParseInt s with
  | none => 1
  | some n => if n = 0 then 1 else n

/-! ### Status display formatting (`formatOrderStatus`) -/

/-- The record `{ label, color, icon }` returned by `formatOrderStatus`. -/
structure StatusInfo where
  label : String
  color : String
  icon : String
deriving DecidableEq

/-- The `statusMap` object literal inside `formatOrderStatus`, as an
association list in source order. -/
def statusMap : List (String × StatusInfo) :=
  [ ("pending_restaurant", { label := "Waiting for Restaurant", color := "yellow", icon := "⏳" }),
    ("preparing", { label := "Being Prepared", color := "blue", icon := "👨‍🍳" }),
    ("ready_for_pickup", { label := "Ready for Pickup", color := "purple", icon := "📦" }),
    ("rider_assigned", { label := "Rider Assigned", color := "indigo", icon := "🛵" }),
    ("picked_up", { label := "Picked Up", color := "cyan", icon := "✅" }),
    ("out_for_delivery", { label := "Out for Delivery", color := "orange", icon := "🚀" }),
    ("delivered", { label := "Delivered", color := "green", icon := "🎉" }),
    ("rejected", { label := "Rejected", color := "red", icon := "❌" }),
    ("cancelled", { label := "Cancelled", color := "gray", icon := "🚫" }) ]

/-- `formatOrderStatus(status)`: `statusMap[status] || { label: status,
color: 'gray', icon: '❓' }`. -/
def formatOrderStatus (status : String) : StatusInfo :=
  match statusMap.find? (fun kv => kv.1 == status) with
  | some kv => kv.2
  | none => { label := status, color := "gray", icon := "❓" }

/-! ### Cart items and grouping (`groupItemsByRestaurant`) -/

/-- A shopping-cart item as read by `placeOrder` / `groupItemsByRestaurant`.
Absent fields are `none`; `isVeg` and `jain` may be absent booleans. -/
structure Item where
  name : String
  price : Int
  quantity : Int
  isVeg : Option Bool := none
  jain : Option Bool := none
  portion : Option String := none
  notes : Option String := none
  vendor : Option String := none
  restaurantName : Option String := none
  restaurantId : Option String := none
  vendorId : Option String := none
deriving DecidableEq

/-- The grouping key `item.restaurantId || item.vendorId || '1'`. -/
def groupKey (it : Item) : String :=
  (jsOr (jsOr it.restaurantId it.vendorId) (some "1")).getD "1"

/-- One step of the `reduce` accumulator in `groupItemsByRestaurant`:
push `it` onto the bucket for key `k`, creating the bucket at the end
when the key is new (object-literal insertion order). -/
def insertItem : List (String × List Item) → String → Item → List (String × List Item)
  | [], k, it => [(k, [it])]
  | (k0, its) :: rest, k, it =>
    if k0 = k then (k0, its ++ [it]) :: rest
    else (k0, its) :: insertItem rest k it

/-- `groupItemsByRestaurant(cart)`: the cart folded into buckets keyed by
`groupKey`, modelled as an association list in insertion order. -/
def groupItemsByRestaurant (cart : List Item) : List (String × List Item) :=
  cart.foldl (fun acc it => insertItem acc (groupKey it) it) []

/-- First-match association lookup (JS property read on the accumulator). -/
def assocGet (k : String) : List (String × List Item) → Option (List Item)
  | [] => none
  | (k0, g) :: rest => if k0 = k then some g else assocGet k rest

/-- The bucket the grouping should hold for key `k` over a processed
list of items: the subsequence of items whose key is `k`, or absent. -/
def groupsSpec (done : List Item) (k : String) : Option (List Item) :=
  let g := done.filter (fun it => groupKey it = k)
  if g = [] then none else some g

/-- Key selection as the specification claim words it: the item's
`restaurantId` if present, otherwise its `vendorId`, otherwise `"1"`
(presence alone, ignoring JavaScript truthiness). -/
def claimGroupKey (it : Item) : String :=
  match it.restaurantId with
  | some r => r
  | none =>
    match it.vendorId with
    | some v => v
    | none => "1"

/-! ### Order placement (`placeOrder` and the simple pass-through calls) -/

/-- The `customerInfo` object read by `placeOrder`; absent fields are
`none`, coordinates absent or `0` both produce `0` in the payload. -/
structure CustomerInfo where
  userId : Option String := none
  fullName : Option String := none
  name : Option String := none
  phoneNumber : Option String := none
  phone : Option String := none
  emailId : Option String := none
  email : Option String := none
  fullAddress : Option String := none
  address : Option String := none
  longitude : Option Int := none
  latitude : Option Int := none
  notes : Option String := none
deriving DecidableEq

/-- The `orderData` argument of `placeOrder`. -/
structure OrderData where
  customerInfo : CustomerInfo
  cart : List Item
  subtotal : Int
  deliveryFee : Int
  platformFee : Int
  total : Int
  paymentMethod : Option String := none
  paymentStatus : Option String := none
deriving DecidableEq

/-- One entry of the `items` array in an order payload.  The
multi-restaurant payload omits the `notes` key in the source; the absent
key is modelled as `none`. -/
structure PayloadItem where
  name : String
  quantity : Int
  price : Int
  isVeg : Bool
  jain : Bool
  portion : Option String
  notes : Option String
deriving DecidableEq

/-- The payload posted to `/orders`.  `locationType`/`coordinates` flatten
the `deliveryLocation` GeoJSON point; the multi-restaurant payload has no
top-level `notes` key, modelled as `none`. -/
structure OrderPayload where
  customerId : Option String
  customerName : Option String
  customerPhone : Option String
  customerEmail : Option String
  deliveryAddress : Option String
  locationType : String
  coordinates : Int × Int
  restaurantId : Int
  restaurantName : String
  items : List PayloadItem
  subtotal : Int
  deliveryFee : Int
  platformFee : Int
  total : Int
  paymentMethod : String
  paymentStatus : String
  notes : Option String
deriving DecidableEq

/-- `items[0]?.vendor || items[0]?.restaurantName || 'Restaurant'`. -/
def headVendorName (items : List Item) : String :=
  match items with
  | [] => "Restaurant"
  | it :: _ => (jsOr (jsOr it.vendor it.restaurantName) (some "Restaurant")).getD "Restaurant"

/-- The single-restaurant payload built by `placeOrder`: caller-supplied
`subtotal`, `deliveryFee` and `total` are passed through. -/
def mkSinglePayload (od : OrderData) (restaurantId : String) (items : List Item) : OrderPayload :=
  let ci := od.customerInfo
  { customerId := jsOrNull ci.userId
    customerName := jsOr ci.fullName ci.name
    customerPhone := jsOr ci.phoneNumber ci.phone
    customerEmail := jsOr ci.emailId ci.email
    deliveryAddress := jsOr ci.fullAddress ci.address
    locationType := "Point"
    coordinates := (ci.longitude.getD 0, ci.latitude.getD 0)
    restaurantId := jsParseIntOr1 restaurantId
    restaurantName := headVendorName items
    items := items.map (fun it =>
      { name := it.name
        quantity := it.quantity
        price := it.price
        isVeg := if it.isVeg = some false then false else true
        jain := if it.jain = some true then true else false
        portion := jsOrNull it.portion
        notes := jsOrNull it.notes })
    subtotal := od.subtotal
    deliveryFee := od.deliveryFee
    platformFee := od.platformFee
    total := od.total
    paymentMethod := if od.paymentMethod = some "cod" then "cash_on_delivery" else "online"
    paymentStatus := jsOrD od.paymentStatus "pending"
    notes := jsOrNull ci.notes }

/-- The per-restaurant payload built by `placeOrder` for a
multi-restaurant order: `subtotal` is recomputed from the group's items,
`deliveryFee` is the fixed `30`, `total` is their sum plus the
caller-supplied `platformFee`. -/
def mkMultiPayload (od : OrderData) (restaurantId : String) (items : List Item) : OrderPayload :=
  let ci := od.customerInfo
  let restaurantSubtotal := items.foldl (fun sum it => sum + it.price * it.quantity) 0
  let restaurantDeliveryFee : Int := 30
  { customerId := jsOrNull ci.userId
    customerName := jsOr ci.fullName ci.name
    customerPhone := jsOr ci.phoneNumber ci.phone
    customerEmail := jsOr ci.emailId ci.email
    deliveryAddress := jsOr ci.fullAddress ci.address
    locationType := "Point"
    coordinates := (ci.longitude.getD 0, ci.latitude.getD 0)
    restaurantId := jsParseIntOr1 restaurantId
    restaurantName := headVendorName items
    items := items.map (fun it =>
      { name := it.name
        quantity := it.quantity
        price := it.price
        isVeg := if it.isVeg = some false then false else true
        jain := if it.jain = some true then true else false
        portion := jsOrNull it.portion
        notes := none })
    subtotal := restaurantSubtotal
    deliveryFee := restaurantDeliveryFee
    platformFee := od.platformFee
    total := restaurantSubtotal + restaurantDeliveryFee + od.platformFee
    paymentMethod := if od.paymentMethod = some "cod" then "cash_on_delivery" else "online"
    paymentStatus := jsOrD od.paymentStatus "pending"
    notes := none }

/-- An axios response whose `data` is an opaque backend blob. -/
structure HttpResp where
  data : String
deriving DecidableEq

/-- The value `placeOrder` resolves with: `response.data` for a single
restaurant, the `{ success, data, message }` aggregate otherwise. -/
inductive PlaceResult where
  | single (data : String)
  | multi (success : Bool) (data : List String) (message : String)
deriving DecidableEq

/-- The sequential `await post` loop of the multi-restaurant branch:
posts every payload in order, collecting `response.data`; the first
rejection aborts the loop and propagates. -/
def postAll (post : OrderPayload → Except Err HttpResp) :
    List OrderPayload → Except Err (List String)
  | [] => Except.ok []
  | p :: ps =>
    match post p with
    | Except.error e => Except.error e
    | Except.ok r =>
      match postAll post ps with
      | Except.error e => Except.error e
      | Except.ok rs => Except.ok (r.data :: rs)

/-- `placeOrder(orderData)`, with the HTTP client as the oracle `post`. -/
def placeOrder (post : OrderPayload → Except Err HttpResp) (orderData : OrderData) :
    Except Err PlaceResult :=
  let ordersByRestaurant := groupItemsByRestaurant orderData.cart
  match ordersByRestaurant with
  | [(restaurantId, items)] =>
    (post (mkSinglePayload orderData restaurantId items)).map
      (fun r => PlaceResult.single r.data)
  | groups =>
    (postAll post (groups.map (fun g => mkMultiPayload orderData g.1 g.2))).map
      (fun rs => PlaceResult.multi true rs (toString rs.length ++ " orders placed successfully"))

/-- `getOrder(orderId)`: GET `/orders/{orderId}`, resolve with `response.data`. -/
def getOrder (get : String → Except Err HttpResp) (orderId : String) : Except Err String :=
  (get ("/orders/" ++ orderId)).map (fun r => r.data)

/-- `trackOrder(orderId)`: GET `/orders/{orderId}/track`. -/
def trackOrder (get : String → Except Err HttpResp) (orderId : String) : Except Err String :=
  (get ("/orders/" ++ orderId ++ "/track")).map (fun r => r.data)

/-- `getCustomerOrders(customerId, limit = 20)`: GET
`/customer/{customerId}/orders` with the `limit` query parameter. -/
def getCustomerOrders (get : String → Int → Except Err HttpResp) (customerId : String)
    (limit : Int := 20) : Except Err String :=
  (get ("/customer/" ++ customerId ++ "/orders") limit).map (fun r => r.data)

/-- The body posted by `cancelOrder`. -/
structure CancelBody where
  status : String
  cancellation_reason : String
deriving DecidableEq

/-- `cancelOrder(orderId, reason = 'Customer requested cancellation')`. -/
def cancelOrder (post : String → CancelBody → Except Err HttpResp) (orderId : String)
    (reason : String := "Customer requested cancellation") : Except Err String :=
  (post ("/orders/" ++ orderId ++ "/status")
      { status := "cancelled", cancellation_reason := reason }).map (fun r => r.data)

/-! ### Rider service (`riderService.js`) -/

/-- `submitOrderToRider(orderData)`: POST `/api/orders` on the rider client. -/
def submitOrderToRider (post : String → String → Except Err HttpResp) (orderData : String) :
    Except Err String :=
  (post "/api/orders" orderData).map (fun r => r.data)

/-- `getAvailableOrders()`: GET `/api/orders/available` on the rider client. -/
def getAvailableOrders (get : String → Except Err HttpResp) : Except Err String :=
  (get "/api/orders/available").map (fun r => r.data)

/-- An order object; `status` and `timeline` are the fields the spread in
`getOrderStatus` overwrites, `rest` stands for all its other fields. -/
structure OrderInfo where
  status : String
  timeline : List String
  rest : String
deriving DecidableEq

/-- A rider-backend response whose `data` is an order object. -/
structure RiderResp where
  data : OrderInfo
deriving DecidableEq

/-- The `data` field of a successful unified `/track` response body. -/
structure TrackData where
  order : OrderInfo
  currentStatus : String
  timeline : List String
deriving DecidableEq

/-- The unified `/track` response body `{ success, data }`. -/
structure TrackBody where
  success : Bool
  data : TrackData
deriving DecidableEq

/-- An axios response for the unified `/track` endpoint. -/
structure TrackResp where
  data : TrackBody
deriving DecidableEq

/-- JavaScript `s.startsWith(p)`. -/
def strStartsWith (s p : String) : Bool :=
  s.toList.take p.toList.length = p.toList

/-- The `try` block of `getOrderStatus(orderId)`: the unified `/track`
endpoint is consulted only for `MYE-` ids and only a `success` response
returns early; otherwise control falls through to the rider backend. -/
def getOrderStatusTry (unifiedTrack : String → Except Err TrackResp)
    (riderGet : String → Except Err RiderResp) (orderId : String) :
    Except Err OrderInfo :=
  if strStartsWith orderId "MYE-" then
    match unifiedTrack ("/orders/" ++ orderId ++ "/track") with
    | Except.error e => Except.error e
    | Except.ok resp =>
      if resp.data.success then
        let tracking := resp.data.data
        Except.ok { tracking.order with
          status := tracking.currentStatus
          timeline := tracking.timeline }
      else (riderGet ("/api/orders/" ++ orderId)).map (fun r => r.data)
  else (riderGet ("/api/orders/" ++ orderId)).map (fun r => r.data)

/-- `getOrderStatus(orderId)` with its `catch`: a rejection is logged via
`console.error` (second component) and rethrown unchanged. -/
def getOrderStatus (unifiedTrack : String → Except Err TrackResp)
    (riderGet : String → Except Err RiderResp) (orderId : String) :
    Except Err OrderInfo × List String :=
  match getOrderStatusTry unifiedTrack riderGet orderId with
  | Except.error e => (Except.error e, ["Error fetching order status:"])
  | Except.ok v => (Except.ok v, [])

/-! ### Real-time connection (`initializeRealtimeConnection` and friends)

The socket.io client is modelled explicitly: `io(...)` creates a fresh
connection object (connection establishment is asynchronous, so the new
object starts unconnected); the transport's later `connect` event is an
environment step.  The `World` records every connection object ever
created, so that an object overwritten without being disconnected remains
observable. -/

/-- The options object passed to `io(WEBSOCKET_URL, {...})`. -/
structure SocketConfig where
  transports : List String
  autoConnect : Bool
  reconnection : Bool
  reconnectionAttempts : Nat
  reconnectionDelay : Nat
deriving DecidableEq

/-- The literal options of `initializeRealtimeConnection`. -/
def ioConfig : SocketConfig :=
  { transports := ["websocket", "polling"]
    autoConnect := true
    reconnection := true
    reconnectionAttempts := 5
    reconnectionDelay := 1000 }

/-- Which optional callbacks the caller supplied in the `callbacks` object. -/
structure Callbacks where
  onConnect : Bool := false
  onDisconnect : Bool := false
  onOrderAccepted : Bool := false
  onOrderRejected : Bool := false
  onStatusUpdate : Bool := false
  onOrderUpdate : Bool := false
  onRiderLocation : Bool := false
deriving DecidableEq

/-- The event names bound by `socket.on` during initialization, in source
order. -/
def boundEvents : List String :=
  ["connect", "disconnect", "authenticated", "order_accepted", "order_rejected",
   "order_status_updated", "order_updated", "rider_location"]

/-- A socket.io connection object: `alive` is false once `.disconnect()`
has been called on it; `handlers`, `customerId` and `callbacks` record what
the bound event handlers close over. -/
structure SocketObj where
  sid : Nat
  config : SocketConfig
  connected : Bool
  alive : Bool
  handlers : List String
  customerId : String
  callbacks : Callbacks
deriving DecidableEq

/-- Module-level state: every connection object ever created, and the
module variable `socket` (`none` models `null`), by object id. -/
structure World where
  sockets : List SocketObj
  current : Option Nat
deriving DecidableEq

/-- The state at module load: `let socket = null`. -/
def World.empty : World := { sockets := [], current := none }

/-- Find the connection object with id `i`. -/
def World.lookup (w : World) (i : Nat) : Option SocketObj :=
  w.sockets.find? (fun s => s.sid == i)

/-- `socket?.connected`: `null` and a missing object are falsy. -/
def World.currentConnected (w : World) : Bool :=
  match w.current with
  | none => false
  | some i =>
    match w.lookup i with
    | none => false
    | some s => s.connected

/-- A pair `(event, payload)` passed to `socket.emit`. -/
abbrev Emit := String × String

/-- `initializeRealtimeConnection(customerId, callbacks)`: a no-op
returning the held socket when `socket?.connected`, otherwise `socket =
io(...)` creates a fresh object (unconnected until the transport's
`connect` event) with the fixed options and all handlers bound; the
previously held object, if any, is not disconnected.  Returns the id of
the held socket. -/
def initializeRealtimeConnection (w : World) (customerId : String) (callbacks : Callbacks) :
    World × Nat :=
  if w.currentConnected then (w, w.current.getD 0)
  else
    let i := w.sockets.length
    let s : SocketObj :=
      { sid := i
        config := ioConfig
        connected := false
        alive := true
        handlers := boundEvents
        customerId := customerId
        callbacks := callbacks }
    ({ sockets := w.sockets ++ [s], current := some i }, i)

/-- `subscribeToOrder(orderId)`: two emits and a log when
`socket?.connected`, nothing otherwise; the module state never changes. -/
def subscribeToOrder (w : World) (orderId : String) : World × List Emit × List String :=
  if w.currentConnected then
    (w, [("order:subscribe", orderId), ("customer:track_order", orderId)],
      ["👁️ Subscribed to order tracking: " ++ orderId])
  else (w, [], [])

/-- `unsubscribeFromOrder(orderId)`: one emit and a log when
`socket?.connected`, nothing otherwise. -/
def unsubscribeFromOrder (w : World) (orderId : String) : World × List Emit × List String :=
  if w.currentConnected then
    (w, [("order:unsubscribe", orderId)], ["👁️ Unsubscribed from order: " ++ orderId])
  else (w, [], [])

/-- `disconnectRealtime()`: `socket.disconnect()` on the held object, then
`socket = null`. -/
def disconnectRealtime (w : World) : World :=
  match w.current with
  | none => w
  | some i =>
    { sockets := w.sockets.map (fun s =>
        if s.sid = i then { s with connected := false, alive := false } else s)
      current := none }

/-- Environment step: the transport finishes establishing (or
re-establishing) the connection of the live object `i`. -/
def socketConnects (w : World) (i : Nat) : World :=
  { w with
    sockets := w.sockets.map (fun s =>
      if s.sid = i && s.alive then { s with connected := true } else s) }

/-- One call to the module's real-time API, or one environment event. -/
inductive Ev where
  | init (customerId : String) (callbacks : Callbacks)
  | subscribe (orderId : String)
  | unsubscribe (orderId : String)
  | disconnect
  | libConnect (i : Nat)
deriving DecidableEq

/-- State transition of one event. -/
def step (w : World) : Ev → World
  | Ev.init cid cbs => (initializeRealtimeConnection w cid cbs).1
  | Ev.subscribe oid => (subscribeToOrder w oid).1
  | Ev.unsubscribe oid => (unsubscribeFromOrder w oid).1
  | Ev.disconnect => disconnectRealtime w
  | Ev.libConnect i => socketConnects w i

/-- Run a sequence of events from module load. -/
def run (es : List Ev) : World :=
  es.foldl step World.empty

/-- Some connection object that was never disconnected is no longer the
one held by the module variable. -/
def World.leaked (w : World) : Bool :=
  w.sockets.any (fun s => s.alive && !(w.current == some s.sid))

/-- The module variable is empty or its socket is connected (the states in
which `initializeRealtimeConnection` cannot abandon a live object). -/
def World.initSafe (w : World) : Bool :=
  (w.current == none) || w.currentConnected

/-- Every `init` event of the sequence happens in an `initSafe` state. -/
def safeRun : World → List Ev → Bool
  | _, [] => true
  | w, e :: es =>
    (match e with
     | Ev.init _ _ => w.initSafe
     | _ => true) && safeRun (step w e) es

/-! ### Helper lemmas on the grouping -/

theorem foldl_add_sum (f : Item → Int) (l : List Item) :
    ∀ a : Int, l.foldl (fun s it => s + f it) a = a + (l.map f).sum := by
  induction l with
  | nil => intro a; simp
  | cons x xs ih => intro a; simp [List.foldl_cons, ih, List.sum_cons, add_assoc]

theorem assocGet_insertItem_self (k : String) (it : Item) :
    ∀ acc : List (String × List Item),
      assocGet k (insertItem acc k it) = some ((assocGet k acc).getD [] ++ [it]) := by
  intro acc
  induction acc with
  | nil => simp [insertItem, assocGet]
  | cons kv rest ih =>
    obtain ⟨k0, g⟩ := kv
    by_cases h : k0 = k
    · subst h; simp [insertItem, assocGet]
    · simp [insertItem, assocGet, h, ih]

theorem assocGet_insertItem_ne (k q : String) (it : Item) (hne : q ≠ k) :
    ∀ acc : List (String × List Item),
      assocGet q (insertItem acc k it) = assocGet q acc := by
  intro acc
  induction acc with
  | nil => simp [insertItem, assocGet, Ne.symm hne]
  | cons kv rest ih =>
    obtain ⟨k0, g⟩ := kv
    by_cases h : k0 = k
    · subst h; simp [insertItem, assocGet, Ne.symm hne]
    · by_cases hq : k0 = q <;> simp [insertItem, assocGet, h, hq, hne, ih]

theorem keys_insertItem (k : String) (it : Item) :
    ∀ acc : List (String × List Item),
      (insertItem acc k it).map Prod.fst =
        if k ∈ acc.map Prod.fst then acc.map Prod.fst else acc.map Prod.fst ++ [k] := by
  intro acc
  induction acc with
  | nil => simp [insertItem]
  | cons kv rest ih =>
    obtain ⟨k0, g⟩ := kv
    by_cases h : k0 = k
    · subst h; simp [insertItem]
    · have h2 : ¬(k = k0) := fun hh => h hh.symm
      by_cases hm : k ∈ rest.map Prod.fst <;>
        simp [insertItem, h, h2, hm, ih]

theorem nodup_keys_insertItem (k : String) (it : Item)
    (acc : List (String × List Item)) (h : (acc.map Prod.fst).Nodup) :
    ((insertItem acc k it).map Prod.fst).Nodup := by
  rw [keys_insertItem]
  split
  · exact h
  · rename_i hnot
    simp [List.nodup_append, h, hnot]

theorem assocGet_of_mem_nodup :
    ∀ (l : List (String × List Item)) (kv : String × List Item),
      (l.map Prod.fst).Nodup → kv ∈ l → assocGet kv.1 l = some kv.2 := by
  intro l
  induction l with
  | nil => intro kv _ hm; simp at hm
  | cons hd rest ih =>
    intro kv hnd hm
    obtain ⟨k0, g⟩ := hd
    rcases List.mem_cons.mp hm with heq | hmem
    · subst heq; simp [assocGet]
    · have hk : kv.1 ∈ rest.map Prod.fst := List.mem_map_of_mem Prod.fst hmem
      rw [List.map_cons] at hnd
      have hnd2 := List.nodup_cons.mp hnd
      have hne : k0 ≠ kv.1 := fun hh => hnd2.1 (hh ▸ hk)
      simpa [assocGet, hne] using ih kv hnd2.2 hmem

theorem mem_keys_of_assocGet :
    ∀ (l : List (String × List Item)) (k : String) (v : List Item),
      assocGet k l = some v → k ∈ l.map Prod.fst := by
  intro l
  induction l with
  | nil => intro k v h; simp [assocGet] at h
  | cons hd rest ih =>
    intro k v h
    obtain ⟨k0, g⟩ := hd
    by_cases he : k0 = k
    · subst he; simp
    · simp only [assocGet, if_neg he] at h
      simpa using Or.inr (ih k v h)

theorem insertItem_groupsSpec (done : List Item) (acc : List (String × List Item)) (x : Item)
    (h : ∀ k, assocGet k acc = groupsSpec done k) :
    ∀ k, assocGet k (insertItem acc (groupKey x) x) = groupsSpec (done ++ [x]) k := by
  intro k
  by_cases hk : k = groupKey x
  · subst hk
    rw [assocGet_insertItem_self, h]
    unfold groupsSpec
    rw [List.filter_append]
    simp only [List.filter_cons, List.filter_nil, decide_True, decide_eq_true_eq, if_pos rfl]
    by_cases hf : done.filter (fun it => groupKey it = groupKey x) = [] <;>
      simp [hf]
  · rw [assocGet_insertItem_ne _ _ _ hk, h]
    unfold groupsSpec
    rw [List.filter_append]
    simp [List.filter_cons, Ne.symm hk]

theorem fold_groups :
    ∀ (rest done : List Item) (acc : List (String × List Item)),
      (∀ k, assocGet k acc = groupsSpec done k) →
      (acc.map Prod.fst).Nodup →
      (∀ k, assocGet k (rest.foldl (fun a it => insertItem a (groupKey it) it) acc)
          = groupsSpec (done ++ rest) k)
        ∧ ((rest.foldl (fun a it => insertItem a (groupKey it) it) acc).map Prod.fst).Nodup := by
  intro rest
  induction rest with
  | nil => intro done acc h hnd; simpa using ⟨h, hnd⟩
  | cons x xs ih =>
    intro done acc h hnd
    have h1 := insertItem_groupsSpec done acc x h
    have h2 := nodup_keys_insertItem (groupKey x) x acc hnd
    have h3 := ih (done ++ [x]) (insertItem acc (groupKey x) x) h1 h2
    simpa [List.foldl_cons, List.append_assoc] using h3

theorem groupItemsByRestaurant_assocGet (cart : List Item) (k : String) :
    assocGet k (groupItemsByRestaurant cart) = groupsSpec cart k := by
  have h := fold_groups cart [] []
    (fun k => by simp [assocGet, groupsSpec]) (by simp)
  simpa [groupItemsByRestaurant] using h.1 k

theorem groupItemsByRestaurant_keys_nodup (cart : List Item) :
    ((groupItemsByRestaurant cart).map Prod.fst).Nodup := by
  have h := fold_groups cart [] []
    (fun k => by simp [assocGet, groupsSpec]) (by simp)
  simpa [groupItemsByRestaurant] using h.2

theorem groupItemsByRestaurant_ne_nil (cart : List Item) (h : cart ≠ []) :
    groupItemsByRestaurant cart ≠ [] := by
  obtain ⟨x, rest, rfl⟩ := List.exists_cons_of_ne_nil h
  intro hg
  have hge := groupItemsByRestaurant_assocGet (x :: rest) (groupKey x)
  rw [hg] at hge
  unfold groupsSpec at hge
  simp [assocGet, List.filter_cons] at hge

/-! ### Helper lemmas on the real-time state machine -/

theorem subscribeToOrder_fst (w : World) (oid : String) :
    (subscribeToOrder w oid).1 = w := by
  unfold subscribeToOrder; split <;> rfl

theorem unsubscribeFromOrder_fst (w : World) (oid : String) :
    (unsubscribeFromOrder w oid).1 = w := by
  unfold unsubscribeFromOrder; split <;> rfl

theorem step_preserves_config (w : World) (e : Ev)
    (h : ∀ s ∈ w.sockets, s.config = ioConfig) :
    ∀ s ∈ (step w e).sockets, s.config = ioConfig := by
  cases e with
  | init cid cbs =>
    intro s hs
    unfold step initializeRealtimeConnection at hs
    cases hc : w.currentConnected with
    | true => rw [hc] at hs; simp at hs; exact h s hs
    | false =>
      rw [hc] at hs
      simp at hs
      rcases hs with hs | hs
      · exact h s hs
      · rw [hs]
  | subscribe oid =>
    intro s hs
    rw [show step w (Ev.subscribe oid) = w from subscribeToOrder_fst w oid] at hs
    exact h s hs
  | unsubscribe oid =>
    intro s hs
    rw [show step w (Ev.unsubscribe oid) = w from unsubscribeFromOrder_fst w oid] at hs
    exact h s hs
  | disconnect =>
    intro s hs
    unfold step disconnectRealtime at hs
    cases hcur : w.current with
    | none => rw [hcur] at hs; exact h s hs
    | some i =>
      rw [hcur] at hs
      simp at hs
      obtain ⟨t, ht, hst⟩ := hs
      rw [← hst]
      by_cases hsid : t.sid = i <;> simp [hsid, h t ht]
  | libConnect i =>
    intro s hs
    unfold step socketConnects at hs
    simp at hs
    obtain ⟨t, ht, hst⟩ := hs
    rw [← hst]
    by_cases hsid : t.sid = i ∧ t.alive = true
    · simp [hsid.1, hsid.2, h t ht]
    · rw [if_neg (by simpa [Bool.and_eq_true] using hsid)]
      exact h t ht

theorem foldl_config (es : List Ev) :
    ∀ w : World, (∀ s ∈ w.sockets, s.config = ioConfig) →
      ∀ s ∈ (es.foldl step w).sockets, s.config = ioConfig := by
  induction es with
  | nil => intro w h; simpa using h
  | cons e es ih =>
    intro w h
    exact ih (step w e) (step_preserves_config w e h)

/-- The invariant behind leak-freedom: socket ids are below the creation
counter, and every never-disconnected object is the held one. -/
def WorldInv (w : World) : Prop :=
  (∀ s ∈ w.sockets, s.sid < w.sockets.length) ∧
  (∀ s ∈ w.sockets, s.alive = true → w.current = some s.sid)

theorem inv_step (w : World) (e : Ev) (hI : WorldInv w)
    (hsafe : ∀ cid cbs, e = Ev.init cid cbs → w.initSafe = true) :
    WorldInv (step w e) := by
  obtain ⟨hbound, hheld⟩ := hI
  cases e with
  | init cid cbs =>
    have hs : w.initSafe = true := hsafe cid cbs rfl
    unfold step initializeRealtimeConnection
    cases hc : w.currentConnected with
    | true => simpa [hc] using ⟨hbound, hheld⟩
    | false =>
      have hnone : w.current = none := by
        unfold World.initSafe at hs
        rw [hc] at hs
        simpa using hs
      simp only [hc, if_neg]
      constructor
      · intro s hs2
        simp at hs2
        rcases hs2 with hs2 | hs2
        · have := hbound s hs2
          simp [List.length_append]
          omega
        · simp [hs2, List.length_append]
      · intro s hs2 halive
        simp at hs2
        rcases hs2 with hs2 | hs2
        · have := hheld s hs2 halive
          rw [hnone] at this
          exact absurd this (by simp)
        · simp [hs2]
  | subscribe oid =>
    rw [show step w (Ev.subscribe oid) = w from subscribeToOrder_fst w oid]
    exact ⟨hbound, hheld⟩
  | unsubscribe oid =>
    rw [show step w (Ev.unsubscribe oid) = w from unsubscribeFromOrder_fst w oid]
    exact ⟨hbound, hheld⟩
  | disconnect =>
    unfold step disconnectRealtime
    cases hcur : w.current with
    | none => exact ⟨hbound, hheld⟩
    | some i =>
      constructor
      · intro s hs2
        simp at hs2
        obtain ⟨t, ht, hst⟩ := hs2
        rw [← hst]
        have := hbound t ht
        by_cases hsid : t.sid = i
        · simp [hsid, this]
          omega
        · simp [hsid, this]
      · intro s hs2 halive
        simp at hs2
        obtain ⟨t, ht, hst⟩ := hs2
        by_cases hsid : t.sid = i
        · rw [← hst] at halive
          simp [hsid] at halive
        · rw [← hst] at halive
          simp [hsid] at halive
          have := hheld t ht halive
          rw [hcur] at this
          exact absurd (Option.some.inj this).symm hsid
  | libConnect i =>
    unfold step socketConnects
    constructor
    · intro s hs2
      simp at hs2
      obtain ⟨t, ht, hst⟩ := hs2
      rw [← hst]
      have := hbound t ht
      by_cases hsid : t.sid = i ∧ t.alive = true
      · simp [hsid.1, hsid.2, this]
        omega
      · rw [if_neg (by simpa [Bool.and_eq_true] using hsid)]
        simpa using this
    · intro s hs2 halive
      simp at hs2
      obtain ⟨t, ht, hst⟩ := hs2
      by_cases hsid : t.sid = i ∧ t.alive = true
      · rw [← hst, if_pos (by simp [hsid.1, hsid.2])]
        simpa using hheld t ht hsid.2
      · rw [← hst, if_neg (by simpa [Bool.and_eq_true] using hsid)] at halive ⊢
        exact hheld t ht halive

theorem inv_run :
    ∀ (es : List Ev) (w : World), WorldInv w → safeRun w es = true →
      WorldInv (es.foldl step w) := by
  intro es
  induction es with
  | nil => intro w h _; simpa using h
  | cons e es ih =>
    intro w h hs
    unfold safeRun at hs
    rw [Bool.and_eq_true] at hs
    obtain ⟨hg, hrest⟩ := hs
    refine ih (step w e) (inv_step w e h ?_) hrest
    intro cid cbs heq
    subst heq
    exact hg

theorem leaked_false_of_held (w : World)
    (h : ∀ s ∈ w.sockets, s.alive = true → w.current = some s.sid) :
    w.leaked = false := by
  unfold World.leaked
  rw [List.any_eq_false]
  intro s hs
  by_cases ha : s.alive = true
  · simp [ha, h s hs ha]
  · simp [Bool.eq_false_iff.mpr ha]

/-! ### Concrete sample data used by witnesses -/

/-- A cart item of restaurant `"5"`. -/
def sampleA : Item :=
  { name := "Dosa", price := 120, quantity := 2, restaurantId := some "5", vendor := some "Udupi" }

/-- A cart item of restaurant `"6"`. -/
def sampleB : Item :=
  { name := "Pizza", price := 250, quantity := 1, restaurantId := some "6" }

/-- A second cart item of restaurant `"5"`. -/
def sampleC : Item :=
  { name := "Lassi", price := 60, quantity := 3, restaurantId := some "5" }

/-- A two-restaurant cart. -/
def sampleCart : List Item := [sampleA, sampleB, sampleC]

/-- A multi-restaurant `orderData` whose caller-supplied totals are
deliberately inconsistent with the cart. -/
def sampleOrder : OrderData :=
  { customerInfo := { fullName := some "Asha", phone := some "9" }
    cart := sampleCart
    subtotal := 999
    deliveryFee := 77
    platformFee := 5
    total := 1111 }

/-- The restaurant-`"5"` group of `sampleCart`. -/
def sampleGroup : String × List Item := ("5", [sampleA, sampleC])

/-! ### Claims -/

/-- C1 counterexample: calling `initializeRealtimeConnection` twice before
the first connection establishes leaves two created connection objects,
both never disconnected, while the module handle holds only the second —
a still-live connection object is abandoned while a second one is created,
contradicting the claim that this never happens for any call sequence. -/
theorem realtime_double_init_leaks :
    (run [Ev.init "c" {}, Ev.init "c" {}]).leaked = true
  ∧ ((run [Ev.init "c" {}, Ev.init "c" {}]).sockets.map (fun s => s.alive)) = [true, true]
  ∧ (run [Ev.init "c" {}, Ev.init "c" {}]).current = some 1 := by
  decide

/-- C1 (amended): for every sequence of calls (and transport events) in
which `initializeRealtimeConnection` is only invoked while the module
socket is absent or connected, no still-live connection object is ever
abandoned: every never-disconnected object is exactly the one held by the
module-level handle. -/
theorem realtime_single_connection_of_initSafe (es : List Ev)
    (h : safeRun World.empty es = true) : (run es).leaked = false := by
  have hinv := inv_run es World.empty
    ⟨by simp [World.empty], by simp [World.empty]⟩ h
  exact leaked_false_of_held _ hinv.2

/-- Witness for C1 (amended) on a concrete safe call sequence. -/
theorem realtime_single_connection_of_initSafe_witness :
    safeRun World.empty
        [Ev.init "c" {}, Ev.libConnect 0, Ev.subscribe "o", Ev.disconnect, Ev.init "d" {}] = true
  ∧ (run [Ev.init "c" {}, Ev.libConnect 0, Ev.subscribe "o", Ev.disconnect, Ev.init "d" {}]).leaked
      = false :=
  ⟨by decide,
   realtime_single_connection_of_initSafe
     [Ev.init "c" {}, Ev.libConnect 0, Ev.subscribe "o", Ev.disconnect, Ev.init "d" {}]
     (by decide)⟩

/-- C2: when the module socket exists and is connected,
`initializeRealtimeConnection` returns that same socket and changes no
module state whatsoever (no object is created, no handlers are rebound),
for every `customerId` and `callbacks`. -/
theorem init_noop_when_connected (w : World) (cid : String) (cbs : Callbacks) (i : Nat)
    (hc : w.current = some i) (hconn : w.currentConnected = true) :
    initializeRealtimeConnection w cid cbs = (w, i) := by
  simp [initializeRealtimeConnection, hconn, hc]

/-- Witness for C2 on a concrete connected state. -/
theorem init_noop_when_connected_witness :
    (run [Ev.init "c" {}, Ev.libConnect 0]).current = some 0
  ∧ (run [Ev.init "c" {}, Ev.libConnect 0]).currentConnected = true
  ∧ initializeRealtimeConnection (run [Ev.init "c" {}, Ev.libConnect 0]) "d"
      { onConnect := true } = (run [Ev.init "c" {}, Ev.libConnect 0], 0) :=
  ⟨by decide, by decide,
   init_noop_when_connected (run [Ev.init "c" {}, Ev.libConnect 0]) "d"
     { onConnect := true } 0 (by decide) (by decide)⟩

/-- C6: `formatOrderStatus` maps each of the nine backend status codes to
the fixed label/color/icon record of the `statusMap` table. -/
theorem formatOrderStatus_table :
    formatOrderStatus "pending_restaurant"
      = { label := "Waiting for Restaurant", color := "yellow", icon := "⏳" }
  ∧ formatOrderStatus "preparing"
      = { label := "Being Prepared", color := "blue", icon := "👨‍🍳" }
  ∧ formatOrderStatus "ready_for_pickup"
      = { label := "Ready for Pickup", color := "purple", icon := "📦" }
  ∧ formatOrderStatus "rider_assigned"
      = { label := "Rider Assigned", color := "indigo", icon := "🛵" }
  ∧ formatOrderStatus "picked_up"
      = { label := "Picked Up", color := "cyan", icon := "✅" }
  ∧ formatOrderStatus "out_for_delivery"
      = { label := "Out for Delivery", color := "orange", icon := "🚀" }
  ∧ formatOrderStatus "delivered"
      = { label := "Delivered", color := "green", icon := "🎉" }
  ∧ formatOrderStatus "rejected"
      = { label := "Rejected", color := "red", icon := "❌" }
  ∧ formatOrderStatus "cancelled"
      = { label := "Cancelled", color := "gray", icon := "🚫" } := by
  decide

/-- C8: on any status string outside the nine table keys,
`formatOrderStatus` is total and echoes the status back as the label with
the gray color and the question-mark icon. -/
theorem formatOrderStatus_default (status : String)
    (h : status ∉ statusMap.map Prod.fst) :
    formatOrderStatus status = { label := status, color := "gray", icon := "❓" } := by
  unfold formatOrderStatus
  have hnone : statusMap.find? (fun kv => kv.1 == status) = none := by
    rw [List.find?_eq_none]
    intro kv hkv
    simp only [beq_iff_eq]
    intro heq
    exact h (heq ▸ List.mem_map_of_mem Prod.fst hkv)
  rw [hnone]

/-- Witness for C8 on a concrete unknown status. -/
theorem formatOrderStatus_default_witness :
    "on_the_moon" ∉ statusMap.map Prod.fst
  ∧ formatOrderStatus "on_the_moon"
      = { label := "on_the_moon", color := "gray", icon := "❓" } :=
  ⟨by decide, formatOrderStatus_default "on_the_moon" (by decide)⟩

/-- C9: when the module socket is `null` or not connected,
`subscribeToOrder` and `unsubscribeFromOrder` emit nothing, log nothing
and leave the module state unchanged. -/
theorem subscribe_unsubscribe_noop (w : World) (oid : String)
    (h : w.currentConnected = false) :
    subscribeToOrder w oid = (w, [], []) ∧ unsubscribeFromOrder w oid = (w, [], []) := by
  constructor <;> simp [subscribeToOrder, unsubscribeFromOrder, h]

/-- Witness for C9 in the initial state (socket `null`). -/
theorem subscribe_unsubscribe_noop_witness :
    World.empty.currentConnected = false
  ∧ subscribeToOrder World.empty "o" = (World.empty, [], [])
  ∧ unsubscribeFromOrder World.empty "o" = (World.empty, [], []) :=
  ⟨by decide,
   (subscribe_unsubscribe_noop World.empty "o" (by decide)).1,
   (subscribe_unsubscribe_noop World.empty "o" (by decide)).2⟩

/-- C3: when the underlying HTTP request rejects with `e`, every one of
the eight operations rejects with the same `e` — no retry, recovery or
reclassification — and `getOrderStatus` is the one call site that also
logs before rethrowing (the other operations produce no log at all). -/
theorem error_propagation_unmodified (e : Err) (orderBlob : String) (oid : String)
    (od : OrderData) (cid : String) (lim : Int) (reason : String)
    (hcart : od.cart ≠ []) :
    submitOrderToRider (fun _ _ => Except.error e) orderBlob = Except.error e
  ∧ getOrderStatus (fun _ => Except.error e) (fun _ => Except.error e) oid
      = (Except.error e, ["Error fetching order status:"])
  ∧ getAvailableOrders (fun _ => Except.error e) = Except.error e
  ∧ placeOrder (fun _ => Except.error e) od = Except.error e
  ∧ getOrder (fun _ => Except.error e) oid = Except.error e
  ∧ trackOrder (fun _ => Except.error e) oid = Except.error e
  ∧ getCustomerOrders (fun _ _ => Except.error e) cid lim = Except.error e
  ∧ cancelOrder (fun _ _ => Except.error e) oid reason = Except.error e := by
  refine ⟨rfl, ?_, rfl, ?_, rfl, rfl, rfl, rfl⟩
  · unfold getOrderStatus getOrderStatusTry
    cases hm : strStartsWith oid "MYE-" <;> simp [hm, Except.map]
  · have hne := groupItemsByRestaurant_ne_nil od.cart hcart
    cases hg : groupItemsByRestaurant od.cart with
    | nil => exact absurd hg hne
    | cons g rest =>
      obtain ⟨rid, its⟩ := g
      cases rest with
      | nil => simp [placeOrder, hg, Except.map]
      | cons g2 rest2 => simp [placeOrder, hg, postAll, Except.map]

/-- Witness for C3: a rejected post makes `placeOrder` reject with the
same error on a concrete one-item cart. -/
theorem error_propagation_unmodified_witness :
    placeOrder (fun _ => Except.error "boom")
      { customerInfo := { name := some "Asha" }
        cart := [{ name := "Dosa", price := 120, quantity := 1 }]
        subtotal := 120, deliveryFee := 30, platformFee := 5, total := 155 }
      = Except.error "boom" :=
  (error_propagation_unmodified "boom" "blob" "MYE-1"
    { customerInfo := { name := some "Asha" }
      cart := [{ name := "Dosa", price := 120, quantity := 1 }]
      subtotal := 120, deliveryFee := 30, platformFee := 5, total := 155 }
    "cust" 20 "why" (by decide)).2.2.2.1

/-- C4: for a multi-restaurant order, each per-group payload that
`placeOrder` posts has `subtotal` equal to the group's sum of price times
quantity, `deliveryFee` equal to `30`, and `total` equal to that subtotal
plus `30` plus the caller-supplied `platformFee`; the caller-supplied
`subtotal`, `deliveryFee` and `total` do not influence these payloads. -/
theorem placeOrder_multi_restaurant_totals (post : OrderPayload → Except Err HttpResp)
    (od : OrderData) (h2 : 2 ≤ (groupItemsByRestaurant od.cart).length) :
    (∀ g ∈ groupItemsByRestaurant od.cart,
        (mkMultiPayload od g.1 g.2).subtotal
            = (g.2.map (fun it => it.price * it.quantity)).sum
      ∧ (mkMultiPayload od g.1 g.2).deliveryFee = 30
      ∧ (mkMultiPayload od g.1 g.2).total
            = (g.2.map (fun it => it.price * it.quantity)).sum + 30 + od.platformFee)
  ∧ placeOrder post od
      = (postAll post ((groupItemsByRestaurant od.cart).map
            (fun g => mkMultiPayload od g.1 g.2))).map
          (fun rs => PlaceResult.multi true rs
            (toString rs.length ++ " orders placed successfully"))
  ∧ (∀ s d t : Int,
        (groupItemsByRestaurant od.cart).map
            (fun g => mkMultiPayload
              { od with subtotal := s, deliveryFee := d, total := t } g.1 g.2)
          = (groupItemsByRestaurant od.cart).map (fun g => mkMultiPayload od g.1 g.2)) := by
  refine ⟨?_, ?_, ?_⟩
  · intro g hg
    refine ⟨?_, rfl, ?_⟩
    · simp [mkMultiPayload, foldl_add_sum (fun it => it.price * it.quantity) g.2 0]
    · simp [mkMultiPayload, foldl_add_sum (fun it => it.price * it.quantity) g.2 0]
  · cases hg : groupItemsByRestaurant od.cart with
    | nil => rw [hg] at h2; simp at h2
    | cons g rest =>
      cases rest with
      | nil => rw [hg] at h2; simp at h2
      | cons g2 rest2 => simp [placeOrder, hg]
  · intro s d t
    rfl

/-- Witness for C4 on the concrete two-restaurant `sampleOrder`. -/
theorem placeOrder_multi_restaurant_totals_witness :
    2 ≤ (groupItemsByRestaurant sampleOrder.cart).length
  ∧ (mkMultiPayload sampleOrder sampleGroup.1 sampleGroup.2).total
      = (sampleGroup.2.map (fun it => it.price * it.quantity)).sum + 30
          + sampleOrder.platformFee :=
  ⟨by decide,
   ((placeOrder_multi_restaurant_totals (fun _ => Except.ok { data := "ok" }) sampleOrder
       (by decide)).1 sampleGroup (by decide)).2.2⟩

/-- C5 counterexample: an item whose `restaurantId` is present but empty
(a falsy string) is grouped under its `vendorId`, not under its
`restaurantId` as the claim's "restaurantId if present" prescribes. -/
theorem groupKey_not_claimKey :
    ({ name := "Roll", price := 80, quantity := 1, restaurantId := some "",
       vendorId := some "7" } : Item).restaurantId = some ""
  ∧ claimGroupKey
      { name := "Roll", price := 80, quantity := 1, restaurantId := some "",
        vendorId := some "7" } = ""
  ∧ groupItemsByRestaurant
      [{ name := "Roll", price := 80, quantity := 1, restaurantId := some "",
         vendorId := some "7" }]
      = [("7", [{ name := "Roll", price := 80, quantity := 1, restaurantId := some "",
                  vendorId := some "7" }])] := by
  decide

/-- C5 (amended): `groupItemsByRestaurant` partitions the cart — the group
keys are distinct, each group is exactly the cart items whose key (the
truthy chain `restaurantId || vendorId || '1'`, where the empty string
counts as absent) equals the group key, in cart order, and every item's
key occurs among the groups. -/
theorem groupItemsByRestaurant_partitions (cart : List Item) :
    ((groupItemsByRestaurant cart).map Prod.fst).Nodup
  ∧ (∀ kv ∈ groupItemsByRestaurant cart,
      kv.2 = cart.filter (fun it => groupKey it = kv.1))
  ∧ (∀ it ∈ cart, groupKey it ∈ (groupItemsByRestaurant cart).map Prod.fst) := by
  refine ⟨groupItemsByRestaurant_keys_nodup cart, ?_, ?_⟩
  · intro kv hkv
    have h1 := assocGet_of_mem_nodup _ kv (groupItemsByRestaurant_keys_nodup cart) hkv
    rw [groupItemsByRestaurant_assocGet] at h1
    simp only [groupsSpec] at h1
    by_cases hf : cart.filter (fun it => groupKey it = kv.1) = []
    · rw [if_pos hf] at h1
      exact absurd h1 (by simp)
    · rw [if_neg hf] at h1
      exact (Option.some.inj h1).symm
  · intro it hit
    have hmem : it ∈ cart.filter (fun x => groupKey x = groupKey it) := by
      simp [List.mem_filter, hit]
    have hne : cart.filter (fun x => groupKey x = groupKey it) ≠ [] :=
      List.ne_nil_of_mem hmem
    have h1 := groupItemsByRestaurant_assocGet cart (groupKey it)
    simp only [groupsSpec] at h1
    rw [if_neg hne] at h1
    exact mem_keys_of_assocGet _ _ _ h1

/-- Witness for C5 (amended): the restaurant-`"5"` group of the sample
cart is exactly the filter of the cart by that key. -/
theorem groupItemsByRestaurant_partitions_witness :
    sampleGroup.2 = sampleCart.filter (fun it => groupKey it = sampleGroup.1) :=
  (groupItemsByRestaurant_partitions sampleCart).2.1 sampleGroup (by decide)

/-- C7: every connection object ever created carries the fixed socket.io
options: reconnection enabled, exactly 5 reconnection attempts, 1000 ms
reconnection delay (and the websocket/polling transports with
auto-connect); the module has no other retry logic. -/
theorem realtime_reconnection_config (es : List Ev) (s : SocketObj)
    (hs : s ∈ (run es).sockets) :
    s.config = ioConfig
  ∧ s.config.reconnection = true
  ∧ s.config.reconnectionAttempts = 5
  ∧ s.config.reconnectionDelay = 1000 := by
  have h := foldl_config es World.empty (by simp [World.empty]) s hs
  exact ⟨h, by rw [h]; rfl, by rw [h]; rfl, by rw [h]; rfl⟩

/-- Witness for C7: the socket created by one `init` call. -/
theorem realtime_reconnection_config_witness :
    ({ sid := 0, config := ioConfig, connected := false, alive := true,
       handlers := boundEvents, customerId := "c", callbacks := {} } : SocketObj)
      ∈ (run [Ev.init "c" {}]).sockets
  ∧ ioConfig.reconnectionAttempts = 5 :=
  ⟨by decide,
   (realtime_reconnection_config [Ev.init "c" {}]
     { sid := 0, config := ioConfig, connected := false, alive := true,
       handlers := boundEvents, customerId := "c", callbacks := {} }
     (by decide)).2.2.1⟩

/-- C10: `getOrderStatus` falls through to the rider backend when the
unified track response has `success` false for an `MYE-` id, and for ids
not starting with `MYE-` its result does not depend on the unified
backend at all. -/
theorem getOrderStatus_unified_fallthrough (oid : String)
    (rg : String → Except Err RiderResp) :
    (∀ (ut : String → Except Err TrackResp) (resp : TrackResp),
        strStartsWith oid "MYE-" = true →
        ut ("/orders/" ++ oid ++ "/track") = Except.ok resp →
        resp.data.success = false →
        (getOrderStatus ut rg oid).1 = (rg ("/api/orders/" ++ oid)).map (fun r => r.data))
  ∧ (∀ utA utB : String → Except Err TrackResp,
        strStartsWith oid "MYE-" = false →
        getOrderStatus utA rg oid = getOrderStatus utB rg oid) := by
  constructor
  · intro ut resp hm hu hs
    unfold getOrderStatus getOrderStatusTry
    rw [hm, hu]
    simp only [if_true, hs, Bool.false_eq_true, if_false]
    cases rg ("/api/orders/" ++ oid) <;> simp [Except.map]
  · intro utA utB hm
    unfold getOrderStatus getOrderStatusTry
    rw [hm]
    simp

/-- Concrete order object for the C10 witness. -/
def c10order : OrderInfo := { status := "preparing", timeline := ["t0"], rest := "blob" }

/-- Concrete rider-backend oracle for the C10 witness. -/
def c10rg : String → Except Err RiderResp := fun _ => Except.ok { data := c10order }

/-- Concrete unified track response with `success` false. -/
def c10track : TrackResp :=
  { data := { success := false
              data := { order := c10order, currentStatus := "x", timeline := [] } } }

/-- Witness for C10 on concrete oracles and order ids. -/
theorem getOrderStatus_unified_fallthrough_witness :
    (getOrderStatus (fun _ => Except.ok c10track) c10rg "MYE-7").1
      = (c10rg ("/api/orders/" ++ "MYE-7")).map (fun r => r.data)
  ∧ getOrderStatus (fun _ => Except.ok c10track) c10rg "ORD-7"
      = getOrderStatus (fun _ => Except.error "down") c10rg "ORD-7" :=
  ⟨(getOrderStatus_unified_fallthrough "MYE-7" c10rg).1
      (fun _ => Except.ok c10track) c10track (by decide) rfl rfl,
   (getOrderStatus_unified_fallthrough "ORD-7" c10rg).2
      (fun _ => Except.ok c10track) (fun _ => Except.error "down") (by decide)⟩

end MyEzz
